import Mathlib

/-!
Shallow embedding of the collab-editor frontend (src/frontend/src) and, where
the claims concern the relay backend that is not part of the frontend sources,
a model of the session relay taken from the specification.  Definitions mirror
the TypeScript sources file by file; theorems settle the claims about them.
-/

namespace CollabEditor

/-! ### types.ts -/

/-- The `ProgrammingLanguage` union type from src/frontend/src/types.ts. -/
inductive ProgrammingLanguage
  | python
  | javascript
  | typescript
  | java
  | cpp
  | go
  | rust
  | ruby
  | php
  | sql
deriving DecidableEq, Repr

/-- The string value of a `ProgrammingLanguage` member (the TS union is a
union of these string literals). -/
def ProgrammingLanguage.toString : ProgrammingLanguage → String
  | .python => "python"
  | .javascript => "javascript"
  | .typescript => "typescript"
  | .java => "java"
  | .cpp => "cpp"
  | .go => "go"
  | .rust => "rust"
  | .ruby => "ruby"
  | .php => "php"
  | .sql => "sql"

/-- The `SessionStatus` union type from types.ts: `'active' | 'idle' | 'closed'`. -/
inductive SessionStatus
  | active
  | idle
  | closed
deriving DecidableEq, Repr

/-- The `Session` interface from types.ts.  `title: string | null` becomes
`Option String`; `participants_count: number` is a count, hence `Nat`. -/
structure Session where
  id : String
  url : String
  websocket_url : String
  language : ProgrammingLanguage
  title : Option String
  created_at : String
  status : SessionStatus
  participants_count : Nat
deriving DecidableEq, Repr

/-- The `CreateSessionRequest` interface from types.ts (all fields optional). -/
structure CreateSessionRequest where
  language : Option ProgrammingLanguage
  initial_code : Option String
  title : Option String
deriving DecidableEq, Repr

/-- The `ExecuteResult` interface from types.ts.  Optional fields are
`Option`s; a field a return site omits is `none`. -/
structure ExecuteResult where
  success : Bool
  output : String
  stderr : Option String
  execution_time_ms : Option Nat
  error : Option String
  error_type : Option String
deriving DecidableEq, Repr

/-! ### lib/executor.ts

The executors run user code in external runtimes (Pyodide, the JS engine).
The runtime behaviour of the user's code is the input of the embedding: a
`PyOutcome` (resp. `JsRun`) records what the runtime did, and the executor
functions below reproduce, from the source, how executor.ts turns that
outcome into an `ExecuteResult`.  `performance.now()` deltas enter as an
explicit `elapsed` argument. -/

/-- Outcome of running Python code under Pyodide, as distinguished by the
control flow of `executePython`: the outer try fails (loading/initialisation),
the inner `pyodide.runPython(code)` throws, or the code completes. -/
inductive PyOutcome
  | loadError (message : String)
  | runError (stderrText : String) (message : String)
  | ok (stdout : String) (stderrText : String)
deriving DecidableEq, Repr

/-- The `executePython` function from executor.ts: how each control path builds its
`ExecuteResult`.  `stderr: stderr || e.message` keeps the captured stderr
unless it is the empty (falsy) string. -/
def executePython (outcome : PyOutcome) (elapsed : Nat) : ExecuteResult :=
  match outcome with
  | .runError stderrText message =>
      { success := false
        output := ""
        stderr := some (if stderrText = "" then message else stderrText)
        error := some message
        error_type := some "runtime_error"
        execution_time_ms := some elapsed }
  | .ok stdout stderrText =>
      { success := true
        output := stdout
        stderr := some stderrText
        error := none
        error_type := none
        execution_time_ms := some elapsed }
  | .loadError message =>
      { success := false
        output := ""
        stderr := none
        error := some message
        error_type := some "runtime_error"
        execution_time_ms := some elapsed }

/-- A JavaScript error value as observed by the catch block of
`executeJavaScript`: its `name` and `message`. -/
structure JsError where
  name : String
  message : String
deriving DecidableEq, Repr

/-- What happened when the sandboxed function ran: the console lines pushed
into `logs` (in order, up to the point the run settled) and, if the run
threw, the error caught. -/
structure JsRun where
  logs : List String
  thrown : Option JsError
deriving DecidableEq, Repr

/-- The `logs.join('\n')` expression from executor.ts. -/
def joinLogs (logs : List String) : String :=
  String.intercalate "\n" logs

/-- The `executeJavaScript` function from executor.ts: on normal completion it returns
success with the joined logs and empty stderr; in the catch block it returns
failure with the logs captured so far, the error message, and
`error_type` `'syntax_error'` iff the error's name is `'SyntaxError'`. -/
def executeJavaScript (run : JsRun) (elapsed : Nat) : ExecuteResult :=
  match run.thrown with
  | none =>
      { success := true
        output := joinLogs run.logs
        stderr := some ""
        error := none
        error_type := none
        execution_time_ms := some elapsed }
  | some e =>
      { success := false
        output := joinLogs run.logs
        stderr := none
        error := some e.message
        error_type := some (if e.name = "SyntaxError" then "syntax_error" else "runtime_error")
        execution_time_ms := some elapsed }

/-- The result returned by the `default` branch of `executeCode` for a
language with no browser runtime. -/
def unsupportedResult (language : ProgrammingLanguage) : ExecuteResult :=
  { success := false
    output := ""
    stderr := none
    error := some ("Language \"" ++ language.toString ++
      "\" is not supported for browser execution. Use Python or JavaScript.")
    error_type := some "runtime_error"
    execution_time_ms := none }

/-- The `executeCode` function from executor.ts: the switch on `language`.  TypeScript is
run as JavaScript; every other language falls to the `default` branch.  The
runtime outcomes the supported branches would observe are passed in. -/
def executeCode (pyOutcome : PyOutcome) (jsRun : JsRun) (pyElapsed jsElapsed : Nat)
    (language : ProgrammingLanguage) : ExecuteResult :=
  match language with
  | .python => executePython pyOutcome pyElapsed
  | .javascript => executeJavaScript jsRun jsElapsed
  | .typescript => executeJavaScript jsRun jsElapsed
  | lang => unsupportedResult lang

/-- The `supportsExecution` function from executor.ts: membership of the language's
string value in `['python', 'javascript', 'typescript']`. -/
def supportsExecution (language : ProgrammingLanguage) : Bool :=
  ["python", "javascript", "typescript"].contains language.toString

/-! ### lib/api.ts

`request` wraps `fetch`.  The embedding takes the outcome of the `fetch`
call as input: either the promise rejected (a transport-level failure) or a
response arrived.  A response's body is classified by how
`response.json()` behaves on it, which is all `request` looks at on the
error path. -/

/-- The `ApiError` class from api.ts: an HTTP status plus a message. -/
structure ApiError where
  status : Nat
  message : String
deriving DecidableEq, Repr

/-- A response body as seen through `response.json()` on the error path of
`request`: it parses to JSON carrying a truthy-or-not `detail` string, or
parsing rejects (`notJson`). -/
inductive ResponseBody
  | jsonWithDetail (detail : String)
  | jsonNoDetail
  | notJson
deriving DecidableEq, Repr

/-- The relevant parts of a `fetch` `Response`: `ok`, `status`, body. -/
structure HttpResponse where
  ok : Bool
  status : Nat
  body : ResponseBody
deriving DecidableEq, Repr

/-- Outcome of the awaited `fetch` call inside `request`. -/
inductive FetchOutcome
  | response (r : HttpResponse)
  | rejected (message : String)
deriving DecidableEq, Repr

/-- What a call to `request` settles to: a resolved value (the parsed body,
`none` for 204 No Content), a thrown `ApiError`, or the propagated
transport-level rejection of `fetch` itself. -/
inductive RequestOutcome
  | success (body : Option ResponseBody)
  | apiFailure (e : ApiError)
  | transportFailure (message : String)
deriving DecidableEq, Repr

/-- The error message `request` builds on a non-ok response:
`await response.json().catch(() => ({detail: 'Unknown error'}))` followed by
`error.detail || 'Request failed'` (JavaScript `||` discards a falsy, i.e.
absent or empty, `detail`). -/
def apiErrorMessage (body : ResponseBody) : String :=
  match body with
  | .jsonWithDetail d => if d = "" then "Request failed" else d
  | .jsonNoDetail => "Request failed"
  | .notJson => "Unknown error"

/-- The `request` function from api.ts.  A rejected `fetch` propagates as
is; a non-ok response throws `ApiError(response.status, message)`; 204
resolves to null; otherwise the body resolves. -/
def request (outcome : FetchOutcome) : RequestOutcome :=
  match outcome with
  | .rejected message => .transportFailure message
  | .response r =>
      if r.ok then
        if r.status = 204 then .success none else .success (some r.body)
      else
        .apiFailure { status := r.status, message := apiErrorMessage r.body }

/-- The body of `api.updateSession`'s PATCH: `{language?, title?}`. -/
structure UpdateSessionBody where
  language : Option String
  title : Option String
deriving DecidableEq, Repr

/-- The key/value pairs `JSON.stringify` serialises for an
`UpdateSessionBody` (an `undefined` optional field is omitted). -/
def updateBodyFields (body : UpdateSessionBody) : List (String × String) :=
  (match body.language with
   | some l => [("language", l)]
   | none => []) ++
  (match body.title with
   | some t => [("title", t)]
   | none => [])

/-- An HTTP request as assembled by the `api` wrapper functions: method,
endpoint, and the serialised body fields. -/
structure HttpRequest where
  method : String
  endpoint : String
  bodyFields : List (String × String)
deriving DecidableEq, Repr

/-- The `api.updateSession` function from api.ts: a PATCH to `/sessions/{sessionId}`
whose body is the serialised `{language?, title?}` object. -/
def updateSession (sessionId : String) (data : UpdateSessionBody) : HttpRequest :=
  { method := "PATCH"
    endpoint := "/sessions/" ++ sessionId
    bodyFields := updateBodyFields data }

/-- The `api.listSessions` function from api.ts: a GET to
`/sessions?limit={limit}&offset={offset}` with no body. -/
def listSessions (limit offset : Nat) : HttpRequest :=
  { method := "GET"
    endpoint := "/sessions?limit=" ++ Nat.repr limit ++ "&offset=" ++ Nat.repr offset
    bodyFields := [] }

/-- The default `limit` of `api.listSessions` (`limit = 50`). -/
def listSessionsDefaultLimit : Nat := 50

/-- The default `offset` of `api.listSessions` (`offset = 0`). -/
def listSessionsDefaultOffset : Nat := 0

/-- The shape `api.listSessions` resolves to:
`{ sessions: Session[]; total: number }`. -/
structure SessionListPage where
  sessions : List Session
  total : Nat
deriving DecidableEq, Repr

/-! ### hooks/useYjs.ts

The hook's React state (`isConnected`, `isLoading`, `error`,
`participantsCount`) is a record; each event handler registered by the hook
is a state transformer translated from its source handler body. -/

/-- The React state held by `useYjs`. -/
structure YjsState where
  isConnected : Bool
  isLoading : Bool
  error : Option String
  participantsCount : Nat
deriving DecidableEq, Repr

/-- The `cleanup` callback of useYjs.ts: destroys binding, provider and doc,
then `setIsConnected(false)` and `setParticipantsCount(0)`. -/
def cleanup (st : YjsState) : YjsState :=
  { st with isConnected := false, participantsCount := 0 }

/-- The `provider.on('status', ...)` handler: `isConnected` iff the status
is `'connected'`, `isLoading` iff it is `'connecting'`. -/
def statusHandler (status : String) (st : YjsState) : YjsState :=
  { st with
      isConnected := status = "connected"
      isLoading := status = "connecting" }

/-- The `provider.awareness.on('change', ...)` handler: store
`provider.awareness.getStates().size` into `participantsCount`. -/
def awarenessChangeHandler (statesSize : Nat) (st : YjsState) : YjsState :=
  { st with participantsCount := statesSize }

/-- The `provider.on('connection-close', ...)` handler: on close code 4004
set the error to `'Session not found'`; in every case `setIsConnected(false)`. -/
def connectionCloseHandler (closeCode : Nat) (st : YjsState) : YjsState :=
  let st1 := if closeCode = 4004 then { st with error := some "Session not found" } else st
  { st1 with isConnected := false }

/-- The `provider.on('connection-error', ...)` handler. -/
def connectionErrorHandler (st : YjsState) : YjsState :=
  { st with error := some "Failed to connect to collaboration server", isLoading := false }

/-- The `provider.on('synced', ...)` handler of useYjs.ts, acting on the
shared text: insert `initialCode` at position 0 only if the synced document
is empty and `initialCode` is non-empty (truthy); otherwise leave the text
unchanged.  `yText` is the text content at the moment the event fires. -/
def onSyncedText (initialCode : String) (yText : String) : String :=
  if yText.length = 0 ∧ initialCode ≠ "" then
    initialCode ++ yText
  else
    yText

/-- The events a `useYjs` session can observe after initialisation, each
dispatched to the handler the hook registered; `teardown` is the effect
cleanup that runs when `sessionId` becomes null or the component unmounts. -/
inductive YjsEvent
  | statusEvent (status : String)
  | awarenessChange (statesSize : Nat)
  | connectionClose (closeCode : Nat)
  | connectionError
  | teardown
deriving DecidableEq, Repr

/-- Dispatch of one observed event to its registered handler. -/
def yjsStep (st : YjsState) (ev : YjsEvent) : YjsState :=
  match ev with
  | .statusEvent status => statusHandler status st
  | .awarenessChange statesSize => awarenessChangeHandler statesSize st
  | .connectionClose closeCode => connectionCloseHandler closeCode st
  | .connectionError => connectionErrorHandler st
  | .teardown => cleanup st

/-- The ordered actions of the `useYjs` initialisation effect together with
the first sync, as they happen at run time.  From the source: the effect
creates the `Y.Doc`, then constructs the `WebsocketProvider` with
`connect: true`, and only registers the `'synced'` handler on it; that
handler — the only place `initialCode` is inserted — runs when the provider
fires `'synced'`, which happens after the WebSocket connection is
established and the sync handshake completes.  `syncedText` is the shared
text content when that event fires. -/
inductive InitAction
  | createDoc
  | connectProvider
  | syncCompleted
  | insertInitialCode
deriving DecidableEq, Repr

/-- The run-time trace of `useYjs` initialisation for a given `initialCode`
and the text content `syncedText` observed at the first `'synced'` event. -/
def useYjsInitTrace (initialCode syncedText : String) : List InitAction :=
  [.createDoc, .connectProvider, .syncCompleted] ++
    (if syncedText.length = 0 ∧ initialCode ≠ "" then [.insertInitialCode] else [])

/-- Whether `a` occurs in `trace` strictly before an occurrence of `b`. -/
def occursBefore (trace : List InitAction) (a b : InitAction) : Bool :=
  ((trace.dropWhile (fun x => x ≠ a)).drop 1).contains b

/-! ### App.tsx -/

/-- The outcome relevant to App's mount effect: loading the session named in
the URL either succeeds with a `Session` or fails (rejected promise). -/
def appMountResult (lookup : Except String Session) :
    Option String × Option ProgrammingLanguage × Bool :=
  match lookup with
  | .ok sess => (some sess.id, some sess.language, true)
  | .error _ => (none, none, false)

/-- App's mount effect (the `useEffect` reading `?session=` from the URL):
with no URL parameter nothing happens; with one, `api.getSession` is awaited
and on success the session id and language are adopted (URL kept), while on
failure `window.history.replaceState` rewrites the URL to the bare pathname,
removing the session parameter.  The result is the adopted session id, the
adopted language, and whether the URL still carries the session parameter. -/
def appMountEffect (urlParam : Option String) (lookup : String → Except String Session) :
    Option String × Option ProgrammingLanguage × Bool :=
  match urlParam with
  | none => (none, none, false)
  | some sid => appMountResult (lookup sid)

/-- The `handleLanguageChange` callback from App.tsx, restricted to the request it sends:
when a session exists it PATCHes `{ language: newLanguage }` via
`api.updateSession`; with no session no request is made. -/
def handleLanguageChange (sessionId : Option String) (newLanguage : ProgrammingLanguage) :
    Option HttpRequest :=
  match sessionId with
  | none => none
  | some sid => some (updateSession sid { language := some newLanguage.toString, title := none })

/-! ### The session relay (backend), modelled from the spec

The FastAPI backend implementing the Session Hub, Hub Registry and Session
Store is not among the frontend sources; the definitions in this section are
modelled from the specification (§3, §4.1, §4.2, §4.3). -/

/-- Modelled from the spec: a delta is a binary-encoded change to document
state (glossary); for the text documents of this system an insertion of
`text` at position `pos`. -/
structure Delta where
  pos : Nat
  text : String
deriving DecidableEq, Repr

/-- Applying one delta to a document's text. -/
def applyDelta (doc : String) (d : Delta) : String :=
  (String.mk (doc.toList.take d.pos)) ++ d.text ++ (String.mk (doc.toList.drop d.pos))

/-- Applying a list of deltas in order. -/
def applyDeltas (doc : String) (ds : List Delta) : String :=
  ds.foldl applyDelta doc

/-- Modelled from the spec: a Connection of a Session Hub (§3) — its
`client_id`, whether it has reached the `synced` state of the protocol state
machine (§4.2), and its `awareness_state`. -/
structure Connection where
  client_id : Nat
  synced : Bool
  awareness_state : Option String
deriving DecidableEq, Repr

/-- Modelled from the spec: a Session Hub (§3) — the set of Connections and
the ordered sequence of deltas merged into the Document Handle, whose length
serves as the state vector (the "logical summary of what has been merged"). -/
structure SessionHub where
  connections : List Connection
  mergedDeltas : List Delta
deriving DecidableEq, Repr

/-- Modelled from the spec: the Hub's state vector (§3). -/
def SessionHub.stateVector (hub : SessionHub) : Nat :=
  hub.mergedDeltas.length

/-- Modelled from the spec: `encode-delta-since(state-vector)` (§2, §4.2
step 2) — the deltas merged after the point summarised by the client's
state vector. -/
def encodeDeltaSince (hub : SessionHub) (clientVector : Nat) : List Delta :=
  hub.mergedDeltas.drop clientVector

/-- Modelled from the spec: the current authoritative document content —
every merged delta applied, in merge order, to the initially empty
Document Handle. -/
def authoritativeContent (hub : SessionHub) : String :=
  applyDeltas "" hub.mergedDeltas

/-- Modelled from the spec: the delta set the handshake delivers to a
joining client that responds with state vector `clientVector` (§4.2 step 2);
a fresh client holds the empty document and vector 0. -/
def handshakeDeltas (hub : SessionHub) (clientVector : Nat) : List Delta :=
  encodeDeltaSince hub clientVector

/-- Modelled from the spec: the recipients of a delta broadcast (§4.2 step
3c) — every other `synced` Connection of the same Hub, the originating
Connection excluded. -/
def broadcastRecipients (hub : SessionHub) (senderId : Nat) : List Connection :=
  hub.connections.filter (fun c => c.synced && c.client_id ≠ senderId)

/-- Modelled from the spec: the recipients of an awareness re-broadcast
(§4.2 step 4) — all other Connections of the Hub. -/
def awarenessRecipients (hub : SessionHub) (senderId : Nat) : List Connection :=
  hub.connections.filter (fun c => c.client_id ≠ senderId)

/-- Modelled from the spec: a Session Record held by the Session Store (§3)
with its exclusively owned Document Handle content. -/
structure StoredSession where
  id : String
  language : String
  title : Option String
  created_at : Nat
  status : SessionStatus
  document : String
deriving DecidableEq, Repr

/-- Modelled from the spec: `update(id, {language?, title?})` of the Session
Store (§4.1) — metadata-only: an omitted field is left alone, a supplied one
replaces the old value; the document is never touched. -/
def storeUpdate (sess : StoredSession) (language : Option String) (title : Option String) :
    StoredSession :=
  { sess with
      language := match language with
        | some l => l
        | none => sess.language
      title := match title with
        | some t => some t
        | none => sess.title }

/-- Modelled from the spec: the relay transport endpoint "rejects connection
with a distinct close code when the session id is unknown" (§6); the
distinguishing close code is the one the frontend decodes as
"session not found", namely 4004.  `none` means the connection is accepted. -/
def relayAcceptConnection (knownSessions : List String) (sessionId : String) : Option Nat :=
  if sessionId ∈ knownSessions then none else some 4004

/-- Modelled from the spec: `list(limit, offset)` of the Session Store
(§4.1) — an ordered page of Session Records plus the total count. -/
def storeList (all : List StoredSession) (limit offset : Nat) :
    List StoredSession × Nat :=
  ((all.drop offset).take limit, all.length)

/-! ## Theorems settling the claims -/

/-- C9: for every `ProgrammingLanguage` `l`, `supportsExecution l` is true
exactly when `l` is python, javascript or typescript, and `executeCode`
returns the unsupported-language failure result (success false, empty
output, error_type runtime_error, error message naming `l`) exactly when
`supportsExecution l` is false. -/
theorem supportsExecution_executeCode_spec
    (pyOutcome : PyOutcome) (jsRun : JsRun) (pyElapsed jsElapsed : Nat)
    (l : ProgrammingLanguage) :
    (supportsExecution l = true ↔
      (l = .python ∨ l = .javascript ∨ l = .typescript)) ∧
    (executeCode pyOutcome jsRun pyElapsed jsElapsed l = unsupportedResult l ↔
      supportsExecution l = false) := by
  obtain ⟨logs, thrown⟩ := jsRun
  constructor
  · cases l <;> decide
  · cases l <;> cases pyOutcome <;> cases thrown <;>
      simp [executeCode, executePython, executeJavaScript, unsupportedResult,
        supportsExecution, ProgrammingLanguage.toString]

/-- C10: whenever the sandboxed run throws, `executeJavaScript` returns
success false with output the newline-joined console lines captured before
the failure, and error_type syntax_error exactly when the thrown error's
name is SyntaxError (runtime_error otherwise); a non-throwing run returns
success true with all captured lines and empty stderr. -/
theorem executeJavaScript_result_spec (logs : List String) (thrown : Option JsError)
    (elapsed : Nat) :
    ((executeJavaScript ⟨logs, thrown⟩ elapsed).output = joinLogs logs) ∧
    ((executeJavaScript ⟨logs, thrown⟩ elapsed).success = true ↔ thrown = none) ∧
    (thrown = none → (executeJavaScript ⟨logs, thrown⟩ elapsed).stderr = some "") ∧
    (∀ e, thrown = some e →
      (executeJavaScript ⟨logs, thrown⟩ elapsed).success = false ∧
      ((executeJavaScript ⟨logs, thrown⟩ elapsed).error_type = some "syntax_error" ↔
        e.name = "SyntaxError") ∧
      ((executeJavaScript ⟨logs, thrown⟩ elapsed).error_type = some "runtime_error" ↔
        e.name ≠ "SyntaxError")) := by
  cases thrown with
  | none => simp [executeJavaScript]
  | some e =>
    by_cases h : e.name = "SyntaxError" <;>
      simp [executeJavaScript, h]

/-- C10 witness: concrete runs exercising the throwing and non-throwing
paths of `executeJavaScript`. -/
theorem executeJavaScript_result_spec_witness :
    (executeJavaScript ⟨["a", "b"], some ⟨"SyntaxError", "bad token"⟩⟩ 7).error_type =
      some "syntax_error" ∧
    (executeJavaScript ⟨["a"], none⟩ 3).stderr = some "" :=
  ⟨((executeJavaScript_result_spec ["a", "b"] (some ⟨"SyntaxError", "bad token"⟩) 7).2.2.2
      ⟨"SyntaxError", "bad token"⟩ rfl).2.1.mpr rfl,
   (executeJavaScript_result_spec ["a"] none 3).2.2.1 rfl⟩

/-- C6: a `SessionStatus` is exactly one of active, idle, closed (three
distinct values), and a `Session` consists exactly of the fields id, url,
websocket_url, language, title, created_at, status, participants_count. -/
theorem session_record_fields (s : Session) (st : SessionStatus) :
    (st = .active ∨ st = .idle ∨ st = .closed) ∧
    (SessionStatus.active ≠ SessionStatus.idle ∧
      SessionStatus.active ≠ SessionStatus.closed ∧
      SessionStatus.idle ≠ SessionStatus.closed) ∧
    (s = { id := s.id, url := s.url, websocket_url := s.websocket_url,
           language := s.language, title := s.title, created_at := s.created_at,
           status := s.status, participants_count := s.participants_count }) := by
  refine ⟨?_, by decide, rfl⟩
  cases st
  · exact Or.inl rfl
  · exact Or.inr (Or.inl rfl)
  · exact Or.inr (Or.inr rfl)

/-- C7: `listSessions limit offset` issues a GET to
`/sessions?limit=<limit>&offset=<offset>` with no body, the defaults are 50
and 0, and the store's list operation returns an order-preserving page of at
most `limit` records together with the total count; the resolved value is a
sessions array plus a numeric total. -/
theorem listSessions_spec (limit offset : Nat) (all : List StoredSession)
    (page : SessionListPage) :
    (listSessions limit offset).method = "GET" ∧
    (listSessions limit offset).endpoint =
      "/sessions?limit=" ++ Nat.repr limit ++ "&offset=" ++ Nat.repr offset ∧
    (listSessions limit offset).bodyFields = [] ∧
    listSessionsDefaultLimit = 50 ∧
    listSessionsDefaultOffset = 0 ∧
    (storeList all limit offset).2 = all.length ∧
    ((storeList all limit offset).1).Sublist all ∧
    (storeList all limit offset).1.length ≤ limit ∧
    page = { sessions := page.sessions, total := page.total } := by
  refine ⟨rfl, rfl, rfl, rfl, rfl, rfl, ?_, ?_, rfl⟩
  · exact (List.take_sublist _ _).trans (List.drop_sublist _ _)
  · exact List.length_take_le _ _

/-- C5: the store's update changes only the supplied metadata fields —
document content, id, creation time and status are untouched — and the
client's language-change path sends a PATCH whose serialised body holds the
language field and nothing else (no request at all without a session). -/
theorem update_metadata_only (sess : StoredSession) (language title : Option String)
    (sid : String) (l : ProgrammingLanguage) :
    (storeUpdate sess language title).document = sess.document ∧
    (storeUpdate sess language title).id = sess.id ∧
    (storeUpdate sess language title).created_at = sess.created_at ∧
    (storeUpdate sess language title).status = sess.status ∧
    (∀ newLang, storeUpdate sess (some newLang) title = { storeUpdate sess none title with language := newLang }) ∧
    ((handleLanguageChange (some sid) l).map HttpRequest.method = some "PATCH") ∧
    ((handleLanguageChange (some sid) l).map (fun r => r.bodyFields.map Prod.fst) =
      some ["language"]) ∧
    handleLanguageChange none l = none :=
  ⟨rfl, rfl, rfl, rfl, fun _ => rfl, rfl, rfl, rfl⟩

/-- C3: after any event history, an awareness change leaves
`participantsCount` equal to the just-queried awareness states size, and a
teardown (sessionId cleared / provider destroyed) resets it to 0. -/
theorem participantsCount_live (st : YjsState) (events : List YjsEvent)
    (statesSize : Nat) :
    ((events ++ [YjsEvent.awarenessChange statesSize]).foldl yjsStep st).participantsCount =
      statesSize ∧
    ((events ++ [YjsEvent.teardown]).foldl yjsStep st).participantsCount = 0 := by
  constructor <;>
    simp [List.foldl_append, yjsStep, awarenessChangeHandler, cleanup]

/-- C4: a delta or awareness frame from a sender is never delivered back to
the sender's own connection, and a delta frame reaches every other synced
connection of the session (an awareness frame even every other connection). -/
theorem broadcast_excludes_sender (hub : SessionHub) (sender : Connection) :
    sender ∉ broadcastRecipients hub sender.client_id ∧
    sender ∉ awarenessRecipients hub sender.client_id ∧
    (∀ c ∈ hub.connections, c.client_id ≠ sender.client_id →
      (c.synced = true → c ∈ broadcastRecipients hub sender.client_id) ∧
      c ∈ awarenessRecipients hub sender.client_id) := by
  refine ⟨?_, ?_, ?_⟩
  · intro h
    rw [broadcastRecipients, List.mem_filter] at h
    simp at h
  · intro h
    rw [awarenessRecipients, List.mem_filter] at h
    simp at h
  · intro c hc hne
    constructor
    · intro hsync
      rw [broadcastRecipients, List.mem_filter]
      exact ⟨hc, by simp [hsync, hne]⟩
    · rw [awarenessRecipients, List.mem_filter]
      exact ⟨hc, by simp [hne]⟩

/-- C4 witness: in a hub with two synced connections, the frame from client
1 reaches client 2 and is not echoed to client 1. -/
theorem broadcast_excludes_sender_witness :
    (⟨2, true, none⟩ : Connection) ∈
      broadcastRecipients ⟨[⟨1, true, none⟩, ⟨2, true, none⟩], []⟩ 1 ∧
    (⟨1, true, none⟩ : Connection) ∉
      broadcastRecipients ⟨[⟨1, true, none⟩, ⟨2, true, none⟩], []⟩ 1 := by
  have h := broadcast_excludes_sender ⟨[⟨1, true, none⟩, ⟨2, true, none⟩], []⟩
    ⟨1, true, none⟩
  exact ⟨(h.2.2 ⟨2, true, none⟩ (by simp) (by decide)).1 rfl, h.1⟩

/-- C2: the connection-close handler reports "Session not found" exactly for
close code 4004 (and marks the client disconnected); the relay's rejection
of an unknown session id carries that very close code; and when the REST
lookup of the URL's session id fails, App adopts no session and removes the
stale session parameter from the URL. -/
theorem session_not_found_spec (closeCode : Nat) (st : YjsState)
    (hclean : st.error = none)
    (known : List String) (sid : String) (hunknown : sid ∉ known)
    (lookup : String → Except String Session) (msg : String)
    (hfail : lookup sid = .error msg) :
    ((connectionCloseHandler closeCode st).error = some "Session not found" ↔
      closeCode = 4004) ∧
    (connectionCloseHandler closeCode st).isConnected = false ∧
    relayAcceptConnection known sid = some 4004 ∧
    (appMountEffect (some sid) lookup).1 = none ∧
    (appMountEffect (some sid) lookup).2.2 = false := by
  refine ⟨?_, ?_, ?_, ?_, ?_⟩
  · by_cases h : closeCode = 4004 <;>
      simp [connectionCloseHandler, h, hclean]
  · by_cases h : closeCode = 4004 <;>
      simp [connectionCloseHandler, h]
  · simp [relayAcceptConnection, hunknown]
  · simp [appMountEffect, appMountResult, hfail]
  · simp [appMountEffect, appMountResult, hfail]

/-- C2 witness: a close event with code 4004 on a clean state produces the
"Session not found" error, and a failing lookup of the URL session id leaves
no session parameter in the URL. -/
theorem session_not_found_spec_witness :
    (connectionCloseHandler 4004 ⟨false, false, none, 0⟩).error =
      some "Session not found" ∧
    (appMountEffect (some "nonexistent123")
      (fun _ => Except.error "ApiError 404")).2.2 = false := by
  have h := session_not_found_spec 4004 ⟨false, false, none, 0⟩ rfl
    [] "nonexistent123" (by simp)
    (fun _ => Except.error "ApiError 404") "ApiError 404" rfl
  exact ⟨h.1.mpr rfl, h.2.2.2.2⟩

/-- C8 counterexample: on a non-ok response whose body parses as JSON but
carries no detail field, `request` throws an `ApiError` whose message is
"Request failed" — which is neither a server-supplied detail message nor
"Unknown error", contradicting the claim that the message is always one of
those two. -/
theorem request_error_message_counterexample :
    request (.response { ok := false, status := 404, body := .jsonNoDetail }) =
      .apiFailure { status := 404, message := "Request failed" } ∧
    ¬ ((∃ d, (ResponseBody.jsonNoDetail : ResponseBody) = .jsonWithDetail d ∧
          "Request failed" = d) ∨
        ((ResponseBody.jsonNoDetail : ResponseBody) = .notJson ∧
          ("Request failed" : String) = "Unknown error")) := by
  constructor
  · rfl
  · rintro (⟨d, hbody, _⟩ | ⟨hbody, _⟩) <;> simp at hbody

/-- C8 (amended): a non-ok response makes `request` throw an `ApiError`
carrying the HTTP status and a message that is the server-supplied detail
when the JSON body has a non-empty one, "Unknown error" when the body is not
JSON, and "Request failed" when the JSON body has no (or an empty) detail;
no non-ok response ever resolves to a value.  A rejected `fetch` propagates
as the transport failure, never as an `ApiError`. -/
theorem request_error_spec (outcome : FetchOutcome) :
    (∀ r : HttpResponse, outcome = .response r → r.ok = false →
      request outcome = .apiFailure { status := r.status, message := apiErrorMessage r.body } ∧
      (∀ d, r.body = .jsonWithDetail d → d ≠ "" → apiErrorMessage r.body = d) ∧
      (r.body = .notJson → apiErrorMessage r.body = "Unknown error") ∧
      (r.body = .jsonNoDetail → apiErrorMessage r.body = "Request failed") ∧
      (∀ d, r.body = .jsonWithDetail d → d = "" → apiErrorMessage r.body = "Request failed") ∧
      (∀ b, request outcome ≠ .success b)) ∧
    (∀ message, outcome = .rejected message →
      request outcome = .transportFailure message ∧
      ∀ e, request outcome ≠ .apiFailure e) := by
  constructor
  · rintro r rfl hok
    refine ⟨by simp [request, hok], ?_, ?_, ?_, ?_, ?_⟩
    · intro d hb hne
      rw [hb]
      simp [apiErrorMessage, hne]
    · intro hb
      rw [hb]
      rfl
    · intro hb
      rw [hb]
      rfl
    · intro d hb he
      rw [hb, he]
      rfl
    · intro b
      simp [request, hok]
  · rintro message rfl
    exact ⟨rfl, fun e => by simp [request]⟩

/-- C8 witness: a 404 response with a JSON detail throws the `ApiError`
with that detail, and a network-level rejection surfaces as the transport
failure. -/
theorem request_error_spec_witness :
    request (.response ⟨false, 404, .jsonWithDetail "Session not found"⟩) =
      .apiFailure { status := 404, message := "Session not found" } ∧
    request (.rejected "network down") = .transportFailure "network down" := by
  have h1 := (request_error_spec
    (.response ⟨false, 404, .jsonWithDetail "Session not found"⟩)).1 _ rfl rfl
  have h2 := (request_error_spec (.rejected "network down")).2 "network down" rfl
  refine ⟨?_, h2.1⟩
  have hmsg := h1.2.1 "Session not found" rfl (by simp)
  rw [h1.1, hmsg]

/-- A string of length zero is the empty string. -/
theorem string_length_zero_eq_empty (s : String) (h : s.length = 0) : s = "" := by
  cases s with
  | mk data =>
    simp [String.length] at h
    simp [h]

/-- C1 counterexample: with the non-empty `initialCode` "print(1)" supplied
by App, `useYjs` does not insert it into the local doc before the provider
connects — when the synced document is non-empty ("x=1") the insertion never
happens at all, and even when it is empty the insertion happens only after
the connection and the first sync. -/
theorem initialCode_insert_counterexample :
    occursBefore (useYjsInitTrace "print(1)" "x=1")
      .insertInitialCode .connectProvider = false ∧
    InitAction.insertInitialCode ∉ useYjsInitTrace "print(1)" "x=1" ∧
    occursBefore (useYjsInitTrace "print(1)" "")
      .insertInitialCode .connectProvider = false := by
  decide

/-- C1 (amended): a client joining with the empty document and state vector
0 receives via the handshake a delta set that applied to the empty document
reproduces the authoritative content exactly, containing each merged delta
exactly as often as the hub merged it (so never twice if merged once); and
since useYjs inserts `initialCode` only after the first sync and only into
an empty document — never before the provider connects — the joining
client's document after sync equals the (non-empty) authoritative content,
with no duplicated content. -/
theorem late_join_bootstrap (hub : SessionHub) (initialCode : String)
    (hne : authoritativeContent hub ≠ "") :
    applyDeltas "" (handshakeDeltas hub 0) = authoritativeContent hub ∧
    (∀ d : Delta, (handshakeDeltas hub 0).count d = hub.mergedDeltas.count d) ∧
    (hub.mergedDeltas.Nodup → (handshakeDeltas hub 0).Nodup) ∧
    onSyncedText initialCode (applyDeltas "" (handshakeDeltas hub 0)) =
      authoritativeContent hub ∧
    (∀ code text, occursBefore (useYjsInitTrace code text)
      .insertInitialCode .connectProvider = false) := by
  refine ⟨rfl, fun d => rfl, fun h => h, ?_, ?_⟩
  · show onSyncedText initialCode (authoritativeContent hub) = authoritativeContent hub
    rw [onSyncedText, if_neg]
    rintro ⟨hlen, -⟩
    exact hne (string_length_zero_eq_empty _ hlen)
  · intro code text
    rw [useYjsInitTrace]
    by_cases h : (text.length = 0 ∧ code ≠ "")
    · rw [if_pos h]
      decide
    · rw [if_neg h]
      decide

/-- C1 witness: a session whose hub merged one delta producing "x=1"; the
joining client with non-empty initialCode ends with exactly "x=1". -/
theorem late_join_bootstrap_witness :
    authoritativeContent ⟨[], [⟨0, "x=1"⟩]⟩ ≠ "" ∧
    onSyncedText "print(1)"
      (applyDeltas "" (handshakeDeltas ⟨[], [⟨0, "x=1"⟩]⟩ 0)) =
      authoritativeContent ⟨[], [⟨0, "x=1"⟩]⟩ := by
  have hne : authoritativeContent ⟨[], [⟨0, "x=1"⟩]⟩ ≠ "" := by decide
  exact ⟨hne, (late_join_bootstrap ⟨[], [⟨0, "x=1"⟩]⟩ "print(1)" hne).2.2.2.1⟩

end CollabEditor
